import Mathlib

/-!
Verification of the `mcp-prompt-optimizer` protocol bridge.

The development shallowly embeds the four cooperating JavaScript modules of
the repository:

* the STDIO dispatcher loop of `src/mcp-package/index.js` (`startServer`),
* the `MCPServer` class (`handleMessage`, `handleToolCall`) whose source is
  embedded in `src/MCP_PACKAGE.md`,
* the `PromptOptimizerApiClient` of `src/unnamed/part_003`
  (`validateKey`, `optimize` error translation),
* the `Config` store whose source is embedded in `src/MCP_PACKAGE.md`.

JavaScript values that can flow through a tool call's `arguments` object are
modelled by the inductive `JsVal` (`undefined` is modelled as `Option.none`
at each field).  Stateful pieces (the file system under the config store, the
line accumulator of the dispatcher) are modelled by explicit state passing.
`JSON.parse` of a whole input line is abstracted as a `String → Option`
function parameter; everything downstream of the parse is embedded directly
from the source.  Throwing JavaScript code is modelled with `Except String`,
the `String` being the thrown `Error`'s message.
-/

/-- A primitive JSON value: an element that can occur inside a `goals`
array.  A nested array element would behave exactly like any other
non-string element in the code (the goal filter drops it), so modelling
array elements as primitives loses nothing the claims depend on. -/
inductive JsPrim where
  | null
  | bool (b : Bool)
  | num (n : Int)
  | str (s : String)
deriving Repr, DecidableEq

/-- A JSON-ish JavaScript value, covering the shapes that can appear in the
`arguments` object of a `tools/call` request.  JavaScript `undefined`
(an absent field) is represented by `Option.none` at the use sites. -/
inductive JsVal where
  | null
  | bool (b : Bool)
  | num (n : Int)
  | str (s : String)
  | arr (xs : List JsPrim)
deriving Repr, DecidableEq

deriving instance DecidableEq for Except

/-- JavaScript truthiness test (`!v` in the source negates this).
`undefined` is handled by the `Option` layer at the use sites. -/
def jsFalsy : JsVal → Bool
  | .null => true
  | .bool b => !b
  | .num n => n == 0
  | .str s => s == ""
  | .arr _ => false

/-- Model of `String.prototype.trim()`: strips the surrounding whitespace
characters (space, tab, carriage return, newline — the whitespace that
occurs on this transport) from both ends of the string. -/
def jsTrim (s : String) : String :=
  ⟨((s.data.dropWhile Char.isWhitespace).reverse.dropWhile
      Char.isWhitespace).reverse⟩

/-- Model of the JavaScript `||` operator applied to a possibly-absent
string and a string default: the default is taken when the left side is
absent, `null`, or the empty string (falsy). -/
def jsOr (o : Option String) (d : String) : String :=
  match o with
  | some s => if s = "" then d else s
  | none => d

/-! ## Config store (`lib/config.js`, source embedded in `src/MCP_PACKAGE.md`)

The per-user config file `~/.prompt-optimizer/config.json` is modelled as an
explicit state: absent, present-but-corrupt (unparseable JSON), or a parsed
record.  Exceptional file-system failures (`fs` throwing) are outside the
model; under normal operation `mkdirSync`/`writeFileSync`/`unlinkSync`
succeed, which is the regime the round-trip claim speaks about. -/

/-- The parsed JSON record persisted by `Config`: `apiKey`, `backendUrl`,
`updatedAt` fields, each possibly absent. -/
structure ConfigRecord where
  apiKey : Option String := none
  backendUrl : Option String := none
  updatedAt : Option String := none
deriving Repr, DecidableEq

/-- Content of the config file on disk: a parseable record or corrupt text. -/
inductive FileContent where
  | valid (c : ConfigRecord)
  | corrupt
deriving Repr, DecidableEq

/-- State of the fixed config path: `none` when the file does not exist. -/
def FsState := Option FileContent

/-- Source `Config.load()`: returns the parsed record if the file exists and parses,
otherwise `null` (read/parse errors are caught and reported, not thrown). -/
def Config.load (fs : FsState) : Option ConfigRecord :=
  match fs with
  | some (.valid c) => some c
  | some .corrupt => none
  | none => none

/-- Source `Config.save(config)`: ensures the directory exists, writes the record,
returns `true`.  The new file state is returned alongside the boolean. -/
def Config.save (_fs : FsState) (c : ConfigRecord) : FsState × Bool :=
  (some (.valid c), true)

/-- Source `Config.setApiKey(apiKey)`: merges the key into the loaded record (or a
fresh one), stamps `updatedAt` with the current time `now`, and saves. -/
def Config.setApiKey (fs : FsState) (apiKey : String) (now : String) :
    FsState × Bool :=
  let c := (Config.load fs).getD {}
  Config.save fs { c with apiKey := some apiKey, updatedAt := some now }

/-- Source `Config.clear()`: unlinks the file if it exists and returns `true`;
returns `false` when there was nothing to remove. -/
def Config.clear (fs : FsState) : FsState × Bool :=
  match fs with
  | some _ => (none, true)
  | none => (none, false)

/-- Source `Config.exists()` (named `existsFile` here because `exists` is a Lean
keyword): whether the config file is present. -/
def Config.existsFile (fs : FsState) : Bool :=
  match fs with
  | some _ => true
  | none => false

/-! ## Remote client (`lib/api-client.js`, source in `src/unnamed/part_003`)

An outbound HTTP attempt (axios) either returns parsed data or fails.  A
failure carries either an HTTP response (`error.response` with a `status`
and an optional `data.detail` string) or no response at all (connection
failure / timeout), in which case only `error.message` is available.  For a
response failure, axios sets `error.message` to
`Request failed with status code <status>`. -/

/-- The failure side of an axios call: an HTTP error response, or a
connection-level failure with no response. -/
inductive HttpOutcome where
  | response (status : Nat) (detail : Option String)
  | noResponse (message : String)
deriving Repr, DecidableEq

/-- Projection `error.response?.status` of an axios failure. -/
def httpStatus : HttpOutcome → Option Nat
  | .response st _ => some st
  | .noResponse _ => none

/-- Projection `error.response?.data?.detail` of an axios failure. -/
def respDetail : HttpOutcome → Option String
  | .response _ d => d
  | .noResponse _ => none

/-- Projection `error.message` of an axios failure: the transport message for a
connection failure, and axios's fixed status-code text for an HTTP error
response. -/
def axiosMessage : HttpOutcome → String
  | .response st _ => "Request failed with status code " ++ toString st
  | .noResponse m => m

/-- The user record returned by the key-validation endpoint
(consumed only by startup diagnostics). -/
structure UserData where
  tier : String := ""
  quota_used : Int := 0
  quota_limit : Int := 0
  subscription_status : String := ""
deriving Repr, DecidableEq

/-- The `metadata` object of a remote optimization response;
`quota_remaining` may be absent. -/
structure Metadata where
  quota_remaining : Option Int := none
deriving Repr, DecidableEq

/-- The decoded body of a successful remote optimization response.  The
confidence score is modelled as a rational; its two-decimal rendering
(`toFixed(2)`) is `toFixed2` below. -/
structure OptimizationResult where
  optimized_prompt : String
  confidence_score : Rat
  metadata : Option Metadata := none
deriving Repr, DecidableEq

/-- Source `PromptOptimizerApiClient.validateKey()`: given the outcome of the
underlying HTTP POST, returns the data or throws (modelled as
`Except.error` carrying the thrown `Error`'s message) after translating the
failure: 401, 403 and 429 get dedicated messages; every other failure —
including 400, 500 and connection failures — falls into the single generic
`Validation failed` branch. -/
def PromptOptimizerApiClient.validateKey
    (out : Except HttpOutcome UserData) : Except String UserData :=
  match out with
  | .ok d => .ok d
  | .error e =>
    if httpStatus e = some 401 then .error "Invalid API key"
    else if httpStatus e = some 403 then
      .error "API key expired or subscription inactive"
    else if httpStatus e = some 429 then
      .error "Rate limit exceeded. Please try again later."
    else .error ("Validation failed: " ++ axiosMessage e)

/-- Source `PromptOptimizerApiClient.optimize(prompt, goals)`: given the outcome of
the underlying HTTP POST (the base64 packaging of the request is invisible
to the error translation modelled here), returns the data or throws after
translating the failure: 429 → rate-limit message carrying the server's
`detail` hint (or `Quota exceeded`), 401 → unauthorized message,
400 → bad-request message carrying the `detail` (or `Bad request`),
500 → server-error message, and anything else — including connection
failures — the generic `Optimization failed` branch. -/
def PromptOptimizerApiClient.optimize
    (out : Except HttpOutcome OptimizationResult) :
    Except String OptimizationResult :=
  match out with
  | .ok d => .ok d
  | .error e =>
    if httpStatus e = some 429 then
      .error (jsOr (respDetail e) "Quota exceeded" ++
        ". Please upgrade your plan or wait for quota reset.")
    else if httpStatus e = some 401 then .error "API key invalid or expired"
    else if httpStatus e = some 400 then
      .error ("Invalid request: " ++ jsOr (respDetail e) "Bad request")
    else if httpStatus e = some 500 then
      .error "Server error. Please try again later."
    else
      .error ("Optimization failed: " ++ jsOr (respDetail e) (axiosMessage e))

/-! ## MCP server (`lib/mcp-protocol.js`, source embedded in `src/MCP_PACKAGE.md`)

`handleToolCall` throws for an unknown tool and returns a tool result
otherwise; `handleMessage` wraps everything in a try/catch that converts any
throw into an `{id, error:{code:-32000, message}}` envelope.  Throws are
modelled as `Except.error` carrying the `Error` message.  The remote client
is passed in as a function from the optimization request actually issued to
its outcome, and each embedded function additionally returns the list of
remote calls it issued, so that "no remote call is made" is expressible. -/

/-- The ten goal tags enumerated in the tool schema and in the `validGoals`
list of `handleToolCall`. -/
def validGoals : List String :=
  ["clarity", "conciseness", "technical_accuracy", "contextual_relevance",
   "specificity", "actionability", "structure", "technical_precision",
   "linguistic_precision", "holistic_effectiveness"]

/-- The request the server hands to
`apiClient.optimize(prompt.trim(), filteredGoals)`. -/
structure RemoteCall where
  prompt : String
  goals : List String
deriving Repr, DecidableEq

/-- One entry of a tool result's `content` array (`ctype` models the JSON
`type` field, which is a Lean keyword). -/
structure ToolContent where
  ctype : String
  text : String
deriving Repr, DecidableEq

/-- A tool-call result: `content` plus the `isError` marker.  The source
omits the `isError` key on success, which reads back as false. -/
structure ToolResult where
  content : List ToolContent
  isError : Bool := false
deriving Repr, DecidableEq

/-- The static descriptor in `this.tools`, with the JSON schema object
modelled by its salient fields (required parameter names, the goal
enumeration, the default goals). -/
structure ToolDescriptor where
  name : String
  description : String
  requiredParams : List String
  goalEnum : List String
  goalDefault : List String
deriving Repr, DecidableEq

/-- The one-element tool registry built in the `MCPServer` constructor. -/
def serverTools : List ToolDescriptor :=
  [{ name := "optimize_prompt",
     description :=
       "Optimize prompts for clarity, conciseness, and effectiveness using advanced AI techniques",
     requiredParams := ["prompt"],
     goalEnum := validGoals,
     goalDefault := ["clarity"] }]

/-- The `arguments` object of a `tools/call`; `none` is an absent field. -/
structure ToolArgs where
  prompt : Option JsVal := none
  goals : Option JsVal := none
deriving Repr, DecidableEq

/-- The `params` object of a request; `none` is an absent field. -/
structure CallParams where
  name : Option String := none
  arguments : Option ToolArgs := none
deriving Repr, DecidableEq

/-- A decoded request envelope `{method, params, id}`; absent fields are
`none` (an absent `id` destructures to `undefined` and is then dropped by
`JSON.stringify`, so `none` round-trips as "no id"). -/
structure RpcMessage where
  method : Option String := none
  params : Option CallParams := none
  id : Option JsVal := none
deriving Repr, DecidableEq

/-- The `result` payload of a response envelope. -/
inductive RpcPayload where
  | initResult
  | toolsListResult (ts : List ToolDescriptor)
  | callResult (r : ToolResult)
deriving Repr, DecidableEq

/-- A response envelope: `{jsonrpc, id, result}` or
`{jsonrpc, id, error:{code, message}}`. -/
inductive Response where
  | result (id : Option JsVal) (payload : RpcPayload)
  | error (id : Option JsVal) (code : Int) (message : String)
deriving Repr, DecidableEq

/-- The `id` field carried by a response envelope. -/
def Response.rid : Response → Option JsVal
  | .result i _ => i
  | .error i _ _ => i

/-- The prompt-validation test
`!prompt || typeof prompt !== 'string' || prompt.trim().length === 0`:
a non-empty-after-trim string passes; everything else — an absent field,
any non-string value (all of which fail the `typeof` test, subsuming the
falsy test for non-strings), and whitespace-only strings — fails. -/
def promptInvalid : Option JsVal → Bool
  | some (.str s) => jsTrim s == ""
  | _ => true

/-- The prompt text handed onward: `prompt.trim()` (only reached when
`promptInvalid` is false, i.e. on a string prompt). -/
def promptText : Option JsVal → String
  | some (.str s) => jsTrim s
  | _ => ""

/-- The destructuring default `const { prompt, goals = ['clarity'] } = args`:
the default applies only when the field is absent (`undefined`). -/
def goalsOrDefault (g : Option JsVal) : JsVal :=
  g.getD (.arr [.str "clarity"])

/-- Source `goals.filter(goal => validGoals.includes(goal))`: keeps, in order,
exactly the elements that are one of the ten valid goal strings (every
kept element is such a string, so the result is typed `List String`). -/
def filterGoals (xs : List JsPrim) : List String :=
  xs.filterMap fun v =>
    match v with
    | .str s => if validGoals.contains s then some s else none
    | _ => none

/-- The filtered goals with the fallback
`if (filteredGoals.length === 0) filteredGoals.push('clarity')`. -/
def appliedGoals (xs : List JsPrim) : List String :=
  let f := filterGoals xs
  if f.isEmpty then ["clarity"] else f

/-- Message of the `TypeError` raised by `goals.filter(...)` when the
destructured `goals` value is not an array (Node's wording; the claims only
depend on a throw occurring, which `handleMessage` turns into a `-32000`
error envelope). -/
def goalsFilterError : JsVal → String
  | .null => "Cannot read properties of null (reading 'filter')"
  | _ => "goals.filter is not a function"

/-- Source `result.confidence_score.toFixed(2)`: two-decimal rendering of the
score, rounding the scaled value to the nearest integer with ties away
from zero (idealized over rationals; the scores at issue are exact
decimals). -/
def toFixed2 (q : Rat) : String :=
  let num : Int := q.num * 100
  let den : Int := (q.den : Int)
  let a : Nat := (2 * num.natAbs + den.natAbs) / (2 * den.natAbs)
  (if num < 0 then "-" else "") ++ toString (a / 100) ++ "." ++
    (if a % 100 < 10 then "0" else "") ++ toString (a % 100)

/-- Rendering `result.metadata?.quota_remaining ?? 'Unknown'` into the text
block (`??` is nullish coalescing: a present number, even 0, is kept). -/
def quotaText : Option Metadata → String
  | some m =>
    match m.quota_remaining with
    | some n => toString n
    | none => "Unknown"
  | none => "Unknown"

/-- The success text block of `handleToolCall`, built from the remote
result `r` and the locally computed applied-goals list `gs`. -/
def renderSuccess (r : OptimizationResult) (gs : List String) : String :=
  "# Optimized Prompt\n\n" ++ r.optimized_prompt ++
  "\n\n---\n\n**Confidence Score:** " ++ toFixed2 r.confidence_score ++
  "\n**Goals Applied:** " ++ String.intercalate ", " gs ++
  "\n**Quota Remaining:** " ++ quotaText r.metadata

/-- Source `MCPServer.handleToolCall(name, args)`.  `remote` is the behaviour of
`apiClient.optimize` on the request actually issued (failure = thrown
message); the second component lists the remote calls issued. -/
def handleToolCall (remote : RemoteCall → Except String OptimizationResult)
    (name : String) (args : ToolArgs) :
    Except String ToolResult × List RemoteCall :=
  if name = "optimize_prompt" then
    if promptInvalid args.prompt then
      (.ok { content := [{ ctype := "text",
                           text := "❌ **Error:** Prompt cannot be empty" }],
             isError := true }, [])
    else
      match goalsOrDefault args.goals with
      | .arr xs =>
        let gs := appliedGoals xs
        let call : RemoteCall := { prompt := promptText args.prompt, goals := gs }
        match remote call with
        | .ok r =>
          (.ok { content := [{ ctype := "text", text := renderSuccess r gs }],
                 isError := false }, [call])
        | .error m =>
          (.ok { content := [{ ctype := "text",
                               text := "❌ **Optimization Error:** " ++ m }],
                 isError := true }, [call])
      | g => (.error (goalsFilterError g), [])
  else (.error ("Unknown tool: " ++ name), [])

/-- The string interpolated for the method in the unknown-method message
(an absent method interpolates as `undefined`). -/
def methodText : Option String → String
  | some m => m
  | none => "undefined"

/-- Source `MCPServer.handleMessage(message)`: routes by method; the surrounding
try/catch turns every throw (missing tool name, unknown tool, non-array
goals, unknown method) into an `{id, error:{code:-32000, message}}`
envelope echoing the request id. -/
def handleMessage (remote : RemoteCall → Except String OptimizationResult)
    (msg : RpcMessage) : Response × List RemoteCall :=
  if msg.method = some "initialize" then
    (.result msg.id .initResult, [])
  else if msg.method = some "tools/list" then
    (.result msg.id (.toolsListResult serverTools), [])
  else if msg.method = some "tools/call" then
    match msg.params with
    | none => (.error msg.id (-32000) "Missing tool name in call parameters", [])
    | some p =>
      match p.name with
      | none =>
        (.error msg.id (-32000) "Missing tool name in call parameters", [])
      | some n =>
        if n = "" then
          (.error msg.id (-32000) "Missing tool name in call parameters", [])
        else
          match handleToolCall remote n (p.arguments.getD {}) with
          | (.ok r, cs) => (.result msg.id (.callResult r), cs)
          | (.error m, cs) => (.error msg.id (-32000) m, cs)
  else
    (.error msg.id (-32000) ("Unknown method: " ++ methodText msg.method), [])

/-! ## Dispatcher loop (`src/mcp-package/index.js`, `startServer`)

Each complete line is handled independently: whitespace-only lines are
skipped; otherwise the line is `JSON.parse`d and dispatched, and a parse
failure is answered with the fixed `-32700` envelope with `id: null`.
`JSON.parse` of a line is abstracted as a `String → Option RpcMessage`
parameter; writing `JSON.stringify(response) + '\n'` to stdout is modelled
as emitting the `Response` value, one list element per written line. -/

/-- The fixed parse-error envelope written when a line fails to decode:
`{jsonrpc:"2.0", id:null, error:{code:-32700, message:'Parse error'}}`. -/
def parseErrorResponse : Response :=
  .error (some .null) (-32700) "Parse error"

/-- Handling of one complete line inside the `for (const line of lines)`
loop: the list of response lines written for it. -/
def processLine (remote : RemoteCall → Except String OptimizationResult)
    (parse : String → Option RpcMessage) (line : String) : List Response :=
  if jsTrim line = "" then []
  else
    match parse line with
    | some m => [(handleMessage remote m).1]
    | none => [parseErrorResponse]

/-- Handling of a sequence of complete lines: each line is processed
independently and the written responses are concatenated in order. -/
def processLines (remote : RemoteCall → Except String OptimizationResult)
    (parse : String → Option RpcMessage) (ls : List String) : List Response :=
  ls.flatMap (processLine remote parse)

/-! ## Framing (`startServer`): the line accumulator

```
buffer += chunk;
let lines = buffer.split('\n');
buffer = lines.pop(); // Keep incomplete line in buffer
for (const line of lines) { ... }
```

Strings are modelled as character lists here to keep the split proofs
structural.  `splitNl` computes `String.prototype.split('\n')`: it always
returns at least one part, a trailing newline yields a trailing empty part,
and the input with no newline yields the singleton of itself. -/

/-- Model of `s.split('\n')` over character lists. -/
def splitNl : List Char → List (List Char)
  | [] => [[]]
  | c :: cs =>
    match splitNl cs with
    | [] => [[]]
    | h :: t => if c = '\n' then [] :: h :: t else (c :: h) :: t

/-- The last part of a split (total; `splitNl` is never empty).  This is
the value of `lines.pop()`. -/
def lastPart : List (List Char) → List Char
  | [] => []
  | [x] => x
  | _ :: y :: t => lastPart (y :: t)

/-- Glue used to describe `splitNl` of a concatenation: prepend `x` onto
the first part of a split. -/
def mergeFirst (x : List Char) : List (List Char) → List (List Char)
  | [] => [x]
  | h :: t => (x ++ h) :: t

/-- One `data` event of `startServer`: append the chunk to the buffer,
split on newlines, keep the last (incomplete) part as the new buffer, and
act on the complete lines.  Returns (new buffer, complete lines). -/
def feedChunk (buf chunk : List Char) : List Char × List (List Char) :=
  let parts := splitNl (buf ++ chunk)
  (lastPart parts, parts.dropLast)

/-- One fold step of the event loop: feed the chunk through the
accumulator and append the newly completed lines to the output so far. -/
def feedStep (st : List Char × List (List Char)) (c : List Char) :
    List Char × List (List Char) :=
  let r := feedChunk st.1 c
  (r.1, st.2 ++ r.2)

/-- Folding a whole sequence of `data` events through the accumulator,
starting from the initial empty buffer: returns the final buffer and every
complete line acted on, in order. -/
def feedAll (chunks : List (List Char)) : List Char × List (List Char) :=
  chunks.foldl feedStep ([], [])

/-- Shorthand for the request envelope of a `tools/call` of
`optimize_prompt` with a string prompt and a string-array goals field. -/
def mkOptimizeMsg (id : Option JsVal) (s : String) (gs : List String) :
    RpcMessage :=
  { method := some "tools/call",
    params := some
      { name := some "optimize_prompt",
        arguments := some
          { prompt := some (.str s),
            goals := some (.arr (gs.map .str)) } },
    id := id }

/-- Whether a JavaScript value is an array (has `Array.prototype.filter`). -/
def JsVal.isArr : JsVal → Bool
  | .arr _ => true
  | _ => false

/-! # Theorems -/

/-- C9. Config Store round trip: after a save of a record containing
`apiKey "X"` (via `setApiKey("X")`) succeeds, `load()` returns a record
containing `apiKey "X"`; after `clear()` the subsequent `exists()` returns
false.  Both `save` and `clear` return a boolean outcome (`clear` reports
whether a file was actually removed). -/
theorem config_roundtrip (fs : FsState) (k now : String) (c : ConfigRecord) :
    (Config.save fs c).2 = true ∧
    Config.load (Config.save fs c).1 = some c ∧
    (Config.setApiKey fs k now).2 = true ∧
    (∃ r, Config.load (Config.setApiKey fs k now).1 = some r ∧
      r.apiKey = some k) ∧
    Config.existsFile (Config.clear fs).1 = false ∧
    (Config.clear fs).2 = Config.existsFile fs := by
  refine ⟨rfl, rfl, rfl, ⟨_, rfl, rfl⟩, ?_, ?_⟩
  · rcases fs with _ | f <;> rfl
  · rcases fs with _ | f <;> rfl

/-- C8 counterexample. For a key-validation call, an HTTP 400 response
is not mapped to a distinct `BadRequest` error: it produces exactly the
same error as a connection failure carrying the same axios message (both
fall into the generic `Validation failed` branch, and the server's detail
hint is dropped), so the claimed five-way mapping does not hold for
key-validation calls. -/
theorem validateKey_400_same_as_unreachable :
    PromptOptimizerApiClient.validateKey
        (.error (.response 400 (some "Invalid request body"))) =
      PromptOptimizerApiClient.validateKey
        (.error (.noResponse "Request failed with status code 400")) ∧
    PromptOptimizerApiClient.validateKey
        (.error (.response 400 (some "Invalid request body"))) =
      (.error "Validation failed: Request failed with status code 400" :
        Except String UserData) := by
  exact ⟨rfl, rfl⟩

/-- C8 amended. The Remote Client maps remote outcomes to domain
errors as follows and never swallows a failure.  For `optimize`: 429 fails
with the rate-limited message carrying the server's detail hint when
present, 401 with the unauthorized message, 400 with the bad-request
message carrying the detail, 500 with the server-error message, and a
connection failure with the generic failure carrying the transport
message.  For `validateKey`: 401, 403 and 429 get their dedicated
messages, while every other failure — including 400, 500 and connection
failures — maps to the single generic validation-failure message.  Every
failed HTTP attempt surfaces as an error to the caller. -/
theorem remoteClient_error_taxonomy (d : Option String) (m : String)
    (e : HttpOutcome) :
    PromptOptimizerApiClient.optimize (.error (.response 429 d)) =
      .error (jsOr d "Quota exceeded" ++
        ". Please upgrade your plan or wait for quota reset.") ∧
    PromptOptimizerApiClient.optimize (.error (.response 401 d)) =
      .error "API key invalid or expired" ∧
    PromptOptimizerApiClient.optimize (.error (.response 400 d)) =
      .error ("Invalid request: " ++ jsOr d "Bad request") ∧
    PromptOptimizerApiClient.optimize (.error (.response 500 d)) =
      .error "Server error. Please try again later." ∧
    PromptOptimizerApiClient.optimize (.error (.noResponse m)) =
      .error ("Optimization failed: " ++ m) ∧
    PromptOptimizerApiClient.validateKey (.error (.response 401 d)) =
      .error "Invalid API key" ∧
    PromptOptimizerApiClient.validateKey (.error (.response 403 d)) =
      .error "API key expired or subscription inactive" ∧
    PromptOptimizerApiClient.validateKey (.error (.response 429 d)) =
      .error "Rate limit exceeded. Please try again later." ∧
    PromptOptimizerApiClient.validateKey (.error (.response 400 d)) =
      .error ("Validation failed: " ++ axiosMessage (.response 400 d)) ∧
    PromptOptimizerApiClient.validateKey (.error (.noResponse m)) =
      .error ("Validation failed: " ++ m) ∧
    (∃ s, PromptOptimizerApiClient.optimize (.error e) = .error s) ∧
    (∃ s, PromptOptimizerApiClient.validateKey (.error e) = .error s) := by
  refine ⟨rfl, rfl, rfl, rfl, rfl, rfl, rfl, rfl, rfl, rfl, ?_, ?_⟩
  · simp only [PromptOptimizerApiClient.optimize]
    split_ifs <;> exact ⟨_, rfl⟩
  · simp only [PromptOptimizerApiClient.validateKey]
    split_ifs <;> exact ⟨_, rfl⟩

/-- C3. A `tools/call` of `optimize_prompt` whose arguments have an
absent, non-string, or all-whitespace prompt yields a successful RPC
response — an `{id, result}` envelope, not an `{id, error}` envelope —
whose tool result is marked `isError` and whose text references the
empty-prompt condition, and no call to the Remote Client is made.  The
`arguments` object itself may also be absent (it defaults to `{}`). -/
theorem emptyPrompt_isErrorResult
    (remote : RemoteCall → Except String OptimizationResult)
    (id : Option JsVal) (argsOpt : Option ToolArgs)
    (h : promptInvalid ((argsOpt.getD {}).prompt) = true) :
    handleMessage remote
      { method := some "tools/call",
        params := some { name := some "optimize_prompt",
                         arguments := argsOpt },
        id := id } =
      (.result id (.callResult
        { content := [{ ctype := "text",
                        text := "❌ **Error:** Prompt cannot be empty" }],
          isError := true }), []) := by
  simp [handleMessage, handleToolCall, h]

/-- Witness for `emptyPrompt_isErrorResult`: an empty `arguments` object
(absent prompt) at a concrete request id. -/
theorem emptyPrompt_isErrorResult_witness :
    promptInvalid (((some ({} : ToolArgs)).getD {}).prompt) = true ∧
    handleMessage (fun _ => .error "unreachable")
      { method := some "tools/call",
        params := some { name := some "optimize_prompt",
                         arguments := some {} },
        id := some (.num 7) } =
      (.result (some (.num 7)) (.callResult
        { content := [{ ctype := "text",
                        text := "❌ **Error:** Prompt cannot be empty" }],
          isError := true }), []) :=
  ⟨by decide, emptyPrompt_isErrorResult (fun _ => .error "unreachable")
    (some (.num 7)) (some {}) (by decide)⟩

/-- The code's goal filter over an array of strings agrees with an
order-preserving filter against the valid-goal set. -/
theorem filterGoals_map_str (gs : List String) :
    filterGoals (gs.map JsPrim.str) =
      gs.filter (fun g => validGoals.contains g) := by
  induction gs with
  | nil => rfl
  | cons g t ih =>
    by_cases hg : g ∈ validGoals <;>
      simpa [filterGoals, List.filterMap_cons, List.filter_cons, hg] using ih

/-- On a valid (non-whitespace string) prompt and an array `goals` field,
`handleToolCall` issues exactly one remote call — trimmed prompt, applied
goals — and renders its success outcome. -/
theorem handleToolCall_valid_ok
    (remote : RemoteCall → Except String OptimizationResult)
    (s : String) (xs : List JsPrim) (r : OptimizationResult)
    (h : jsTrim s ≠ "")
    (hr : remote { prompt := jsTrim s, goals := appliedGoals xs } = .ok r) :
    handleToolCall remote "optimize_prompt"
        { prompt := some (.str s), goals := some (.arr xs) } =
      (.ok { content := [{ ctype := "text",
                           text := renderSuccess r (appliedGoals xs) }],
             isError := false },
       [{ prompt := jsTrim s, goals := appliedGoals xs }]) := by
  simp [handleToolCall, promptInvalid, h, goalsOrDefault, promptText, hr]

/-- On a valid prompt and an array `goals` field, a remote (domain)
failure is rendered as an `isError` tool result; the remote call was
still issued. -/
theorem handleToolCall_valid_err
    (remote : RemoteCall → Except String OptimizationResult)
    (s : String) (xs : List JsPrim) (m : String)
    (h : jsTrim s ≠ "")
    (hr : remote { prompt := jsTrim s, goals := appliedGoals xs } =
      .error m) :
    handleToolCall remote "optimize_prompt"
        { prompt := some (.str s), goals := some (.arr xs) } =
      (.ok { content := [{ ctype := "text",
                           text := "❌ **Optimization Error:** " ++ m }],
             isError := true },
       [{ prompt := jsTrim s, goals := appliedGoals xs }]) := by
  simp [handleToolCall, promptInvalid, h, goalsOrDefault, promptText, hr]

/-- Routing by `handleMessage` of a valid `optimize_prompt` call whose
remote call succeeds. -/
theorem handleMessage_optimize_ok
    (remote : RemoteCall → Except String OptimizationResult)
    (id : Option JsVal) (s : String) (xs : List JsPrim)
    (r : OptimizationResult)
    (h : jsTrim s ≠ "")
    (hr : remote { prompt := jsTrim s, goals := appliedGoals xs } = .ok r) :
    handleMessage remote
      { method := some "tools/call",
        params := some { name := some "optimize_prompt",
                         arguments := some { prompt := some (.str s),
                                             goals := some (.arr xs) } },
        id := id } =
      (.result id (.callResult
        { content := [{ ctype := "text",
                        text := renderSuccess r (appliedGoals xs) }],
          isError := false }),
       [{ prompt := jsTrim s, goals := appliedGoals xs }]) := by
  simp [handleMessage, handleToolCall_valid_ok remote s xs r h hr]

/-- Routing by `handleMessage` of a valid `optimize_prompt` call whose
remote call fails: still a successful RPC envelope, with an `isError` result. -/
theorem handleMessage_optimize_err
    (remote : RemoteCall → Except String OptimizationResult)
    (id : Option JsVal) (s : String) (xs : List JsPrim) (m : String)
    (h : jsTrim s ≠ "")
    (hr : remote { prompt := jsTrim s, goals := appliedGoals xs } =
      .error m) :
    handleMessage remote
      { method := some "tools/call",
        params := some { name := some "optimize_prompt",
                         arguments := some { prompt := some (.str s),
                                             goals := some (.arr xs) } },
        id := id } =
      (.result id (.callResult
        { content := [{ ctype := "text",
                        text := "❌ **Optimization Error:** " ++ m }],
          isError := true }),
       [{ prompt := jsTrim s, goals := appliedGoals xs }]) := by
  simp [handleMessage, handleToolCall_valid_err remote s xs m h hr]

/-- The applied goal list for a string array: the caller's list filtered
against the valid-goal set in order, with the `clarity` fallback. -/
theorem appliedGoals_map_str (gs : List String) :
    appliedGoals (gs.map JsPrim.str) =
      if gs.filter (fun g => validGoals.contains g) = [] then ["clarity"]
      else gs.filter (fun g => validGoals.contains g) := by
  simp [appliedGoals, filterGoals_map_str, List.isEmpty_iff]

/-- C4. For every goals array passed to `optimize_prompt` (with a valid
prompt), the goal list handed to the Remote Client equals the caller's list
filtered to the ten enumerated goals, order preserved, unknown tags dropped
silently with no error produced; if the filtered list is empty the single
default goal `clarity` is substituted instead of failing the call. -/
theorem goalFiltering
    (remote : RemoteCall → Except String OptimizationResult)
    (id : Option JsVal) (s : String) (gs : List String)
    (h : jsTrim s ≠ "") :
    validGoals.length = 10 ∧
    (handleMessage remote (mkOptimizeMsg id s gs)).2.map RemoteCall.goals =
      [if gs.filter (fun g => validGoals.contains g) = [] then ["clarity"]
       else gs.filter (fun g => validGoals.contains g)] ∧
    (∃ tr, (handleMessage remote (mkOptimizeMsg id s gs)).1 =
      .result id (.callResult tr)) := by
  refine ⟨rfl, ?_, ?_⟩ <;>
    rcases hr : remote ⟨jsTrim s, appliedGoals (gs.map JsPrim.str)⟩
      with m | r
  · rw [mkOptimizeMsg, handleMessage_optimize_err remote id s _ m h hr]
    simp [appliedGoals_map_str]
  · rw [mkOptimizeMsg, handleMessage_optimize_ok remote id s _ r h hr]
    simp [appliedGoals_map_str]
  · rw [mkOptimizeMsg, handleMessage_optimize_err remote id s _ m h hr]
    exact ⟨_, rfl⟩
  · rw [mkOptimizeMsg, handleMessage_optimize_ok remote id s _ r h hr]
    exact ⟨_, rfl⟩

/-- Witness for `goalFiltering`: the two concrete examples of the claim —
goals `["clarity", "not_a_real_goal", "structure"]` filter to
`["clarity", "structure"]` in order, and `["not_a_real_goal"]` substitutes
the default — at a concrete request. -/
theorem goalFiltering_witness :
    jsTrim "help me code" ≠ "" ∧
    (handleMessage (fun _ => .error "Unreachable")
        (mkOptimizeMsg (some (.num 1)) "help me code"
          ["clarity", "not_a_real_goal", "structure"])).2.map
        RemoteCall.goals = [["clarity", "structure"]] ∧
    (handleMessage (fun _ => .error "Unreachable")
        (mkOptimizeMsg (some (.num 2)) "help me code"
          ["not_a_real_goal"])).2.map RemoteCall.goals = [["clarity"]] := by
  refine ⟨by decide, ?_, ?_⟩
  · have t := (goalFiltering (fun _ => .error "Unreachable") (some (.num 1))
      "help me code" ["clarity", "not_a_real_goal", "structure"]
      (by decide)).2.1
    simpa using t
  · have t := (goalFiltering (fun _ => .error "Unreachable") (some (.num 2))
      "help me code" ["not_a_real_goal"] (by decide)).2.1
    simpa using t

/-- Every response produced by `handleMessage` echoes the request's id. -/
theorem handleMessage_rid
    (remote : RemoteCall → Except String OptimizationResult)
    (msg : RpcMessage) :
    ((handleMessage remote msg).1).rid = msg.id := by
  unfold handleMessage
  split_ifs with h1 h2 h3
  · rfl
  · rfl
  · cases hp : msg.params with
    | none => rfl
    | some p =>
      cases hn : p.name with
      | none => simp [hn, Response.rid]
      | some n =>
        by_cases hne : n = ""
        · simp [hn, hne, Response.rid]
        · rcases ht : handleToolCall remote n (p.arguments.getD {})
            with ⟨e, cs⟩
          cases e <;> simp [hn, hne, ht, Response.rid]
  · rfl

/-- C5. For decodable requests: an unknown method, a `tools/call`
without `params.name`, and a `tools/call` whose name is not the registered
tool each yield a protocol-level error envelope `{id, error:{-32000}}`
echoing the request id (and make no remote call), not a successful RPC
with an `isError` tool result; an undecodable line alone gets code
`-32700`. -/
theorem protocolLevelErrors
    (remote : RemoteCall → Except String OptimizationResult)
    (parse : String → Option RpcMessage) (id : Option JsVal)
    (m : Option String) (params : Option CallParams)
    (args : Option ToolArgs) (n : String) (line : String) :
    (m ≠ some "initialize" → m ≠ some "tools/list" →
      m ≠ some "tools/call" →
      handleMessage remote { method := m, params := params, id := id } =
        (.error id (-32000) ("Unknown method: " ++ methodText m), [])) ∧
    (handleMessage remote
        { method := some "tools/call", params := none, id := id } =
      (.error id (-32000) "Missing tool name in call parameters", [])) ∧
    (handleMessage remote
        { method := some "tools/call",
          params := some { name := none, arguments := args }, id := id } =
      (.error id (-32000) "Missing tool name in call parameters", [])) ∧
    (handleMessage remote
        { method := some "tools/call",
          params := some { name := some "", arguments := args },
          id := id } =
      (.error id (-32000) "Missing tool name in call parameters", [])) ∧
    (n ≠ "" → n ≠ "optimize_prompt" →
      handleMessage remote
          { method := some "tools/call",
            params := some { name := some n, arguments := args },
            id := id } =
        (.error id (-32000) ("Unknown tool: " ++ n), [])) ∧
    (jsTrim line ≠ "" → parse line = none →
      processLine remote parse line =
        [.error (some .null) (-32700) "Parse error"]) := by
  refine ⟨?_, rfl, rfl, by simp [handleMessage], ?_, ?_⟩
  · intro h1 h2 h3
    unfold handleMessage
    rw [if_neg h1, if_neg h2, if_neg h3]
  · intro hne hname
    simp [handleMessage, handleToolCall, hne, hname]
  · intro hline hparse
    simp [processLine, hline, hparse, parseErrorResponse]

/-- Witness for `protocolLevelErrors`: an unknown method `foo`, an unknown
tool `other_tool`, and an undecodable line, at concrete ids. -/
theorem protocolLevelErrors_witness :
    (handleMessage (fun _ => .error "unreachable")
        { method := some "foo", params := none, id := some (.num 3) } =
      (.error (some (.num 3)) (-32000) "Unknown method: foo", [])) ∧
    (handleMessage (fun _ => .error "unreachable")
        { method := some "tools/call",
          params := some { name := some "other_tool", arguments := none },
          id := some (.num 4) } =
      (.error (some (.num 4)) (-32000) "Unknown tool: other_tool", [])) ∧
    (processLine (fun _ => .error "unreachable") (fun _ => none)
        "this is not an envelope" =
      [.error (some .null) (-32700) "Parse error"]) := by
  refine ⟨?_, ?_, ?_⟩
  · exact (protocolLevelErrors (fun _ => .error "unreachable") (fun _ => none)
      (some (.num 3)) (some "foo") none none "x" "y").1
      (by decide) (by decide) (by decide)
  · exact (protocolLevelErrors (fun _ => .error "unreachable") (fun _ => none)
      (some (.num 4)) none none none "other_tool" "y").2.2.2.2.1
      (by decide) (by decide)
  · exact (protocolLevelErrors (fun _ => .error "unreachable") (fun _ => none)
      none none none none "x" "this is not an envelope").2.2.2.2.2
      (by decide) rfl

/-- C10 counterexample. The claim quantifies over *every* call whose
`goals` value is present but not an array; but when the prompt is also
invalid (here: absent), the prompt check fires first and the dispatcher
returns a successful `{id, result}` envelope with an `isError` tool
result — not the claimed `{id, error:{-32000}}` envelope — and the goals
value is never touched. -/
theorem goalsNonArray_invalidPrompt_result :
    handleMessage (fun _ => .error "unreachable")
      { method := some "tools/call",
        params := some { name := some "optimize_prompt",
                         arguments := some { prompt := none,
                                             goals := some (.str "clarity") } },
        id := some (.num 1) } =
      (.result (some (.num 1)) (.callResult
        { content := [{ ctype := "text",
                        text := "❌ **Error:** Prompt cannot be empty" }],
          isError := true }), []) := by
  rfl

/-- C10 amended. For every `tools/call` of `optimize_prompt` whose
prompt passes validation and whose `goals` value is present but not an
array (for example a string or a number), the goals filter throws before
any remote call and the dispatcher returns a protocol-level error
`{id, error:{code:-32000}}` — not a successful RPC with an `isError` tool
result; no remote call is made. -/
theorem goalsNonArray_protocolError
    (remote : RemoteCall → Except String OptimizationResult)
    (id : Option JsVal) (s : String) (v : JsVal)
    (h : jsTrim s ≠ "") (hv : v.isArr = false) :
    handleMessage remote
      { method := some "tools/call",
        params := some { name := some "optimize_prompt",
                         arguments := some { prompt := some (.str s),
                                             goals := some v } },
        id := id } =
      (.error id (-32000) (goalsFilterError v), []) := by
  cases v <;> simp_all [handleMessage, handleToolCall, promptInvalid,
    goalsOrDefault, goalsFilterError, JsVal.isArr]

/-- Witness for `goalsNonArray_protocolError`: a string-valued `goals`
with a valid prompt at a concrete id. -/
theorem goalsNonArray_protocolError_witness :
    jsTrim "write tests" ≠ "" ∧ (JsVal.str "clarity").isArr = false ∧
    handleMessage (fun _ => .error "unreachable")
      { method := some "tools/call",
        params := some { name := some "optimize_prompt",
                         arguments := some
                           { prompt := some (.str "write tests"),
                             goals := some (.str "clarity") } },
        id := some (.num 9) } =
      (.error (some (.num 9)) (-32000) "goals.filter is not a function",
       []) :=
  ⟨by decide, by decide,
    goalsNonArray_protocolError (fun _ => .error "unreachable")
      (some (.num 9)) "write tests" (.str "clarity")
      (by decide) (by decide)⟩

/-- C6 counterexample. The goals line of the rendered success block is
not sourced from the remote service's response: with the remote response
held fixed (a constant remote), two calls that differ only in their
requested goals render different success blocks — the `Goals Applied`
segment is the locally filtered goal list, computed from the request. -/
theorem renderedGoals_not_from_response :
    (handleToolCall
        (fun _ => .ok { optimized_prompt := "OPT", confidence_score := 1,
                        metadata := some { quota_remaining := some 5 } })
        "optimize_prompt"
        { prompt := some (.str "p"),
          goals := some (.arr [.str "clarity"]) }).1 ≠
      (handleToolCall
        (fun _ => .ok { optimized_prompt := "OPT", confidence_score := 1,
                        metadata := some { quota_remaining := some 5 } })
        "optimize_prompt"
        { prompt := some (.str "p"),
          goals := some (.arr [.str "structure"]) }).1 := by
  decide

/-- C6 amended. For every successful `optimize_prompt` call, the
rendered success result is a text block containing the optimized prompt
text, the confidence score, and the remaining-quota figure sourced from
the remote service's response, together with the *locally filtered*
applied-goals list (the goals that were sent to the service), which is
computed from the request rather than read back from the response. -/
theorem renderSuccess_sources
    (remote : RemoteCall → Except String OptimizationResult)
    (id : Option JsVal) (s : String) (xs : List JsPrim)
    (r : OptimizationResult)
    (h : jsTrim s ≠ "")
    (hr : remote { prompt := jsTrim s, goals := appliedGoals xs } = .ok r) :
    handleMessage remote
      { method := some "tools/call",
        params := some { name := some "optimize_prompt",
                         arguments := some { prompt := some (.str s),
                                             goals := some (.arr xs) } },
        id := id } =
      (.result id (.callResult
        { content := [{ ctype := "text",
                        text := "# Optimized Prompt\n\n" ++
                          r.optimized_prompt ++
                          "\n\n---\n\n**Confidence Score:** " ++
                          toFixed2 r.confidence_score ++
                          "\n**Goals Applied:** " ++
                          String.intercalate ", " (appliedGoals xs) ++
                          "\n**Quota Remaining:** " ++
                          quotaText r.metadata }],
          isError := false }),
       [{ prompt := jsTrim s, goals := appliedGoals xs }]) := by
  rw [handleMessage_optimize_ok remote id s xs r h hr]
  rfl

/-- Witness for `renderSuccess_sources`: a concrete call against a remote
returning a fixed response. -/
theorem renderSuccess_sources_witness :
    jsTrim "p" ≠ "" ∧
    (fun (_ : RemoteCall) =>
      (.ok { optimized_prompt := "OPT", confidence_score := 1,
             metadata := some { quota_remaining := some 5 } } :
        Except String OptimizationResult))
      { prompt := jsTrim "p",
        goals := appliedGoals [JsPrim.str "clarity"] } =
      .ok { optimized_prompt := "OPT", confidence_score := 1,
            metadata := some { quota_remaining := some 5 } } ∧
    handleMessage
      (fun _ => .ok { optimized_prompt := "OPT", confidence_score := 1,
                      metadata := some { quota_remaining := some 5 } })
      { method := some "tools/call",
        params := some { name := some "optimize_prompt",
                         arguments := some
                           { prompt := some (.str "p"),
                             goals := some (.arr [.str "clarity"]) } },
        id := some (.num 1) } =
      (.result (some (.num 1)) (.callResult
        { content := [{ ctype := "text",
                        text :=
                          "# Optimized Prompt\n\nOPT\n\n---\n\n**Confidence Score:** " ++
                          toFixed2 1 ++
                          "\n**Goals Applied:** clarity\n**Quota Remaining:** 5" }],
          isError := false }),
       [{ prompt := "p", goals := ["clarity"] }]) := by
  refine ⟨by decide, rfl, ?_⟩
  have t := renderSuccess_sources
    (fun _ => .ok { optimized_prompt := "OPT", confidence_score := 1,
                    metadata := some { quota_remaining := some 5 } })
    (some (.num 1)) "p" [JsPrim.str "clarity"]
    { optimized_prompt := "OPT", confidence_score := 1,
      metadata := some { quota_remaining := some 5 } }
    (by decide) rfl
  rw [t]
  decide

/-- C7 counterexample. The goal list handed to the Remote Client is
*not* de-duplicated: with goals `["clarity", "clarity"]` (and a prompt
that also demonstrates trimming), the outbound Optimization Request
carries `["clarity", "clarity"]`, a list with a duplicate. -/
theorem goalsNotDeduplicated :
    (handleToolCall (fun _ => .error "Unreachable") "optimize_prompt"
        { prompt := some (.str "  help me  "),
          goals := some (.arr [.str "clarity", .str "clarity"]) }).2 =
      [{ prompt := "help me", goals := ["clarity", "clarity"] }] ∧
    ¬ List.Nodup ["clarity", "clarity"] :=
  ⟨rfl, by decide⟩

/-- C7 amended. For every valid `optimize_prompt` call that reaches
the Remote Client, the Optimization Request handed to it consists of the
prompt trimmed of surrounding whitespace (non-empty under the validation
precondition) together with the schema-filtered goal list in the caller's
order — duplicates retained, not de-duplicated — falling back to the
single default tag when the filtered list is empty; exactly one request
is issued. -/
theorem optimizationRequest_shape
    (remote : RemoteCall → Except String OptimizationResult)
    (id : Option JsVal) (s : String) (gs : List String)
    (h : jsTrim s ≠ "") :
    (handleMessage remote (mkOptimizeMsg id s gs)).2 =
      [{ prompt := jsTrim s,
         goals := if gs.filter (fun g => validGoals.contains g) = []
                  then ["clarity"]
                  else gs.filter (fun g => validGoals.contains g) }] := by
  rcases hr : remote ⟨jsTrim s, appliedGoals (gs.map JsPrim.str)⟩ with m | r
  · rw [mkOptimizeMsg, handleMessage_optimize_err remote id s _ m h hr]
    simp [appliedGoals_map_str]
  · rw [mkOptimizeMsg, handleMessage_optimize_ok remote id s _ r h hr]
    simp [appliedGoals_map_str]

/-- Witness for `optimizationRequest_shape`: trimming and duplicate
retention at a concrete call. -/
theorem optimizationRequest_shape_witness :
    jsTrim "  help me  " ≠ "" ∧
    (handleMessage (fun _ => .error "Unreachable")
        (mkOptimizeMsg (some (.num 6)) "  help me  "
          ["clarity", "clarity"])).2 =
      [{ prompt := "help me", goals := ["clarity", "clarity"] }] := by
  refine ⟨by decide, ?_⟩
  have t := optimizationRequest_shape (fun _ => .error "Unreachable")
    (some (.num 6)) "  help me  " ["clarity", "clarity"] (by decide)
  rw [t]
  decide

/-- C1. For every complete input line: a whitespace-only line produces
no response; a line that decodes produces exactly one response carrying
the request's id; a line that fails to decode produces exactly one
parse-error response with `id = null` and code `-32700`; and lines are
processed independently, so a decode failure on one line does not affect
the processing of subsequent lines. -/
theorem dispatcher_line_responses
    (remote : RemoteCall → Except String OptimizationResult)
    (parse : String → Option RpcMessage) (line : String)
    (ls : List String) (m : RpcMessage) :
    (jsTrim line = "" → processLine remote parse line = []) ∧
    (jsTrim line ≠ "" → parse line = some m →
      processLine remote parse line = [(handleMessage remote m).1] ∧
      ((handleMessage remote m).1).rid = m.id) ∧
    (jsTrim line ≠ "" → parse line = none →
      processLine remote parse line =
        [.error (some .null) (-32700) "Parse error"]) ∧
    processLines remote parse (line :: ls) =
      processLine remote parse line ++ processLines remote parse ls := by
  refine ⟨?_, ?_, ?_, ?_⟩
  · intro h; simp [processLine, h]
  · intro h hp
    exact ⟨by simp [processLine, h, hp], handleMessage_rid remote m⟩
  · intro h hp
    simp [processLine, h, hp, parseErrorResponse]
  · simp [processLines]

/-- Witness for `dispatcher_line_responses`: a whitespace-only line, a
decodable line, and an undecodable line, each at concrete inputs. -/
theorem dispatcher_line_responses_witness :
    processLine (fun _ => .error "x") (fun _ => none) "  " = [] ∧
    processLine (fun _ => .error "x")
        (fun _ => some { method := some "initialize", id := some (.num 1) })
        "hello" =
      [.result (some (.num 1)) .initResult] ∧
    processLine (fun _ => .error "x") (fun _ => none) "garbage" =
      [.error (some .null) (-32700) "Parse error"] := by
  refine ⟨?_, ?_, ?_⟩
  · exact (dispatcher_line_responses (fun _ => .error "x") (fun _ => none)
      "  " [] {}).1 (by decide)
  · have t := (dispatcher_line_responses (fun _ => .error "x")
      (fun _ => some { method := some "initialize", id := some (.num 1) })
      "hello" [] { method := some "initialize", id := some (.num 1) }).2.1
      (by decide) rfl
    rw [t.1]; rfl
  · exact (dispatcher_line_responses (fun _ => .error "x") (fun _ => none)
      "garbage" [] {}).2.2.1 (by decide) rfl

/-- A split never produces the empty list of parts. -/
theorem splitNl_ne_nil (l : List Char) : splitNl l ≠ [] := by
  cases l with
  | nil => simp [splitNl]
  | cons c cs =>
    simp only [splitNl]
    rcases h : splitNl cs with _ | ⟨x, t⟩
    · simp
    · by_cases hc : c = '\n' <;> simp [hc]

/-- Splitting after a leading newline: an empty first part. -/
theorem splitNl_cons_nl (cs : List Char) :
    splitNl ('\n' :: cs) = [] :: splitNl cs := by
  simp only [splitNl]
  rcases h : splitNl cs with _ | ⟨x, t⟩
  · exact absurd h (splitNl_ne_nil cs)
  · simp

/-- Splitting after a leading non-newline character: the character is
prepended onto the first part. -/
theorem splitNl_cons_ne (c : Char) (cs : List Char) (hc : c ≠ '\n') :
    splitNl (c :: cs) = mergeFirst [c] (splitNl cs) := by
  simp only [splitNl]
  rcases h : splitNl cs with _ | ⟨x, t⟩
  · exact absurd h (splitNl_ne_nil cs)
  · simp [hc, mergeFirst]

/-- Lemma: `lastPart` skips past a first element when more follow. -/
theorem lastPart_cons_cons (x y : List Char) (t : List (List Char)) :
    lastPart (x :: y :: t) = lastPart (y :: t) := rfl

/-- Lemma: `lastPart` of an append with a nonempty right part. -/
theorem lastPart_append_ne (a b : List (List Char)) (hb : b ≠ []) :
    lastPart (a ++ b) = lastPart b := by
  induction a with
  | nil => rfl
  | cons x a' ih =>
    rcases hab : a' ++ b with _ | ⟨y, r⟩
    · exact absurd (List.append_eq_nil.mp hab).2 hb
    · rw [List.cons_append, hab, lastPart_cons_cons, ← hab, ih]

/-- Lemma: `dropLast` of an append with a nonempty right part. -/
theorem dropLast_append_ne (a b : List (List Char)) (hb : b ≠ []) :
    (a ++ b).dropLast = a ++ b.dropLast := by
  induction a with
  | nil => simp
  | cons x a' ih =>
    rcases hab : a' ++ b with _ | ⟨y, r⟩
    · exact absurd (List.append_eq_nil.mp hab).2 hb
    · rw [List.cons_append, hab, List.dropLast_cons₂, ← hab, ih,
        List.cons_append]

/-- Gluing a prefix onto a split never empties it. -/
theorem mergeFirst_ne_nil (x : List Char) (l : List (List Char)) :
    mergeFirst x l ≠ [] := by
  cases l <;> simp [mergeFirst]

/-- How a split acts on a concatenation: all parts of the left string
except its trailing part, then the splits of the right string with the
left string's trailing part glued onto the first of them. -/
theorem splitNl_append (a b : List Char) :
    splitNl (a ++ b) = (splitNl a).dropLast ++
      mergeFirst (lastPart (splitNl a)) (splitNl b) := by
  induction a with
  | nil =>
    rcases h : splitNl b with _ | ⟨x, t⟩
    · exact absurd h (splitNl_ne_nil b)
    · simp [splitNl, mergeFirst, lastPart, h]
  | cons c a' ih =>
    by_cases hc : c = '\n'
    · subst hc
      rw [List.cons_append, splitNl_cons_nl, splitNl_cons_nl, ih]
      rcases h' : splitNl a' with _ | ⟨x, t⟩
      · exact absurd h' (splitNl_ne_nil a')
      · rw [List.dropLast_cons₂, lastPart_cons_cons, List.cons_append]
    · rw [List.cons_append, splitNl_cons_ne c _ hc, splitNl_cons_ne c _ hc,
        ih]
      rcases h' : splitNl a' with _ | ⟨x, t⟩
      · exact absurd h' (splitNl_ne_nil a')
      · rcases t with _ | ⟨y, t'⟩
        · rcases hb : splitNl b with _ | ⟨z, u⟩
          · exact absurd hb (splitNl_ne_nil b)
          · simp [mergeFirst, lastPart, List.append_assoc]
        · simp [mergeFirst, lastPart_cons_cons, List.dropLast_cons₂,
            List.cons_append]

/-- A string with no newline splits into itself alone. -/
theorem splitNl_of_no_newline (l : List Char) (h : ∀ c ∈ l, c ≠ '\n') :
    splitNl l = [l] := by
  induction l with
  | nil => rfl
  | cons c cs ih =>
    rw [splitNl_cons_ne c cs (h c (List.mem_cons_self c cs)),
      ih fun x hx => h x (List.mem_cons_of_mem c hx)]
    rfl

/-- The trailing part of a split contains no newline. -/
theorem lastPart_splitNl_no_newline (l : List Char) :
    ∀ c ∈ lastPart (splitNl l), c ≠ '\n' := by
  induction l with
  | nil => intro c hc; simp [splitNl, lastPart] at hc
  | cons a cs ih =>
    by_cases ha : a = '\n'
    · subst ha
      rw [splitNl_cons_nl]
      rcases h' : splitNl cs with _ | ⟨x, t⟩
      · exact absurd h' (splitNl_ne_nil cs)
      · rw [lastPart_cons_cons, ← h']
        exact ih
    · rw [splitNl_cons_ne a cs ha]
      rcases h' : splitNl cs with _ | ⟨x, t⟩
      · exact absurd h' (splitNl_ne_nil cs)
      · rcases t with _ | ⟨y, t'⟩
        · intro c hc
          simp [mergeFirst, lastPart] at hc
          rcases hc with rfl | hc
          · exact ha
          · have hx := ih
            rw [h'] at hx
            exact hx c (by simpa [lastPart] using hc)
        · intro c hc
          have hx := ih
          rw [h', lastPart_cons_cons] at hx
          exact hx c (by simpa [mergeFirst, lastPart_cons_cons] using hc)

/-- One fold step, written out over the split of `buffer ++ chunk`. -/
theorem feedStep_eq (buf : List Char) (out : List (List Char))
    (c : List Char) :
    feedStep (buf, out) c =
      (lastPart (splitNl (buf ++ c)),
       out ++ (splitNl (buf ++ c)).dropLast) := rfl

/-- Invariant of the accumulator fold: starting from a newline-free
buffer, feeding any chunk sequence acts on exactly the complete lines of
`buffer ++ concatenation`, in order, and retains its trailing part. -/
theorem feed_foldl (chunks : List (List Char)) (buf : List Char)
    (out : List (List Char)) (hb : ∀ c ∈ buf, c ≠ '\n') :
    chunks.foldl feedStep (buf, out) =
      (lastPart (splitNl (buf ++ chunks.flatten)),
       out ++ (splitNl (buf ++ chunks.flatten)).dropLast) := by
  induction chunks generalizing buf out with
  | nil =>
    rw [List.foldl_nil, List.flatten_nil, List.append_nil,
      splitNl_of_no_newline buf hb]
    simp [lastPart]
  | cons c cs ih =>
    rw [List.foldl_cons, feedStep_eq,
      ih (lastPart (splitNl (buf ++ c)))
        (out ++ (splitNl (buf ++ c)).dropLast)
        (lastPart_splitNl_no_newline (buf ++ c)),
      List.flatten_cons, ← List.append_assoc]
    have hmerge :
        splitNl (lastPart (splitNl (buf ++ c)) ++ cs.flatten) =
          mergeFirst (lastPart (splitNl (buf ++ c))) (splitNl cs.flatten) := by
      rw [splitNl_append,
        splitNl_of_no_newline _ (lastPart_splitNl_no_newline (buf ++ c))]
      simp [lastPart]
    have happ :
        splitNl ((buf ++ c) ++ cs.flatten) =
          (splitNl (buf ++ c)).dropLast ++
            mergeFirst (lastPart (splitNl (buf ++ c))) (splitNl cs.flatten) :=
      splitNl_append _ _
    rw [hmerge, happ,
      lastPart_append_ne _ _ (mergeFirst_ne_nil _ _),
      dropLast_append_ne _ _ (mergeFirst_ne_nil _ _),
      List.append_assoc]

/-- C2. The dispatcher's framing is equivalent to processing the
concatenated stream line by line: feeding any sequence of chunks acts on
exactly the newline-terminated lines of the concatenation, in order (a
line is acted on only once its newline has arrived), retains the partial
trailing data in the accumulator, and two chunkings of the same stream
produce identical outcomes — no line is lost, merged, or processed
twice. -/
theorem framing_equivalence (chunks ds : List (List Char))
    (h : chunks.flatten = ds.flatten) :
    feedAll chunks =
      (lastPart (splitNl chunks.flatten),
       (splitNl chunks.flatten).dropLast) ∧
    feedAll chunks = feedAll ds := by
  have main : ∀ cs : List (List Char), feedAll cs =
      (lastPart (splitNl cs.flatten), (splitNl cs.flatten).dropLast) := by
    intro cs
    have t := feed_foldl cs [] [] (by intro c hc; cases hc)
    simpa [feedAll] using t
  refine ⟨main chunks, ?_⟩
  rw [main chunks, main ds, h]

/-- Witness for `framing_equivalence`: a fragmented chunking of
`one<nl>two<nl>thr` — a line split across chunk boundaries — acts on
exactly the two complete lines and buffers the partial third. -/
theorem framing_equivalence_witness :
    (["on".data, "e\ntw".data, "o\nthr".data] :
        List (List Char)).flatten = ["one\ntwo\nthr".data].flatten ∧
    feedAll ["on".data, "e\ntw".data, "o\nthr".data] =
      ("thr".data, ["one".data, "two".data]) ∧
    feedAll ["on".data, "e\ntw".data, "o\nthr".data] =
      feedAll ["one\ntwo\nthr".data] := by
  have t := framing_equivalence ["on".data, "e\ntw".data, "o\nthr".data]
    ["one\ntwo\nthr".data] (by decide)
  refine ⟨by decide, ?_, t.2⟩
  rw [t.1]
  decide
